import Mathlib

/-!
Verification of the photonutilspy module (src/photonutils/__init__.py).

The module is a stateless library of geometric estimators over the wpimath
geometry primitives (Translation2d, Rotation2d, Pose2d, Transform2d,
Translation3d, Rotation3d, Pose3d, Transform3d).  Python floats are modelled
by the reals; each wpimath primitive is modelled by its value content, with
the operations the module uses (rotateBy, transformBy, inverse, negation,
addition) translated from the wpimath library semantics.

Two layers are modelled:
  - the function bodies, as pure functions over the geometry model;
  - the Python call semantics of the classmethods, in an Except monad, so
    that the dynamic failures of the module (classmethod arity mismatch,
    missing attribute, float division by zero) are captured.
-/

noncomputable section

open Real

/-! ## The wpimath 2D geometry model -/

/-- Model of wpimath Translation2d: a displacement vector in the plane. -/
@[ext]
structure Translation2d where
  x : ℝ
  y : ℝ

/-- Model of wpimath Rotation2d: a planar orientation, modelled by its angle
in radians; its cos and sin accessors are the cosine and sine of the angle. -/
@[ext]
structure Rotation2d where
  angle : ℝ

/-- The cos accessor of Rotation2d. -/
def Rotation2d.cos (r : Rotation2d) : ℝ := Real.cos r.angle

/-- The sin accessor of Rotation2d. -/
def Rotation2d.sin (r : Rotation2d) : ℝ := Real.sin r.angle

/-- Rotation2d unary minus: the opposite angle. -/
instance : Neg Rotation2d := ⟨fun r => ⟨-r.angle⟩⟩

/-- Rotation2d addition: angles add. -/
instance : Add Rotation2d := ⟨fun a b => ⟨a.angle + b.angle⟩⟩

/-- Rotation2d subtraction: angles subtract. -/
instance : Sub Rotation2d := ⟨fun a b => ⟨a.angle - b.angle⟩⟩

/-- Translation2d unary minus. -/
instance : Neg Translation2d := ⟨fun t => ⟨-t.x, -t.y⟩⟩

/-- Translation2d addition. -/
instance : Add Translation2d := ⟨fun a b => ⟨a.x + b.x, a.y + b.y⟩⟩

/-- wpimath Translation2d.rotateBy: rotates the vector by the given angle. -/
def Translation2d.rotateBy (t : Translation2d) (r : Rotation2d) : Translation2d :=
  ⟨t.x * Real.cos r.angle - t.y * Real.sin r.angle,
   t.x * Real.sin r.angle + t.y * Real.cos r.angle⟩

/-- Model of wpimath Pose2d: position plus orientation in field coordinates. -/
@[ext]
structure Pose2d where
  translation : Translation2d
  rotation : Rotation2d

/-- Model of wpimath Transform2d: a relative displacement plus rotation. -/
@[ext]
structure Transform2d where
  translation : Translation2d
  rotation : Rotation2d

/-- The identity Transform2d (the wpimath default constructor Transform2d()):
zero translation and zero rotation. -/
def identityTransform2d : Transform2d := ⟨⟨0, 0⟩, ⟨0⟩⟩

/-- wpimath Transform2d.inverse: the inverse transform, with translation
negated and rotated by the negated rotation. -/
def Transform2d.inverse (t : Transform2d) : Transform2d :=
  ⟨(-t.translation).rotateBy (-t.rotation), -t.rotation⟩

/-- wpimath Pose2d.transformBy: composes the pose with a transform, rotating
the transform translation into the pose frame and adding the rotations. -/
def Pose2d.transformBy (p : Pose2d) (t : Transform2d) : Pose2d :=
  ⟨p.translation + t.translation.rotateBy p.rotation, t.rotation + p.rotation⟩

/-! ## The wpimath 3D geometry model -/

/-- Model of the wpimath Quaternion backing Rotation3d. -/
@[ext]
structure Quat where
  w : ℝ
  x : ℝ
  y : ℝ
  z : ℝ

/-- Hamilton product of quaternions (wpimath Quaternion.times). -/
def Quat.mul (a b : Quat) : Quat :=
  ⟨a.w * b.w - a.x * b.x - a.y * b.y - a.z * b.z,
   a.w * b.x + a.x * b.w + a.y * b.z - a.z * b.y,
   a.w * b.y - a.x * b.z + a.y * b.w + a.z * b.x,
   a.w * b.z + a.x * b.y - a.y * b.x + a.z * b.w⟩

/-- Squared norm of a quaternion. -/
def Quat.normSq (a : Quat) : ℝ := a.w ^ 2 + a.x ^ 2 + a.y ^ 2 + a.z ^ 2

/-- wpimath Quaternion.inverse: the conjugate divided by the squared norm. -/
def Quat.inverse (a : Quat) : Quat :=
  ⟨a.w / a.normSq, -a.x / a.normSq, -a.y / a.normSq, -a.z / a.normSq⟩

/-- Model of wpimath Rotation3d: a 3D orientation backed by a quaternion. -/
@[ext]
structure Rotation3d where
  q : Quat

/-- wpimath Rotation3d.unaryMinus: the inverse rotation. -/
instance : Neg Rotation3d := ⟨fun r => ⟨r.q.inverse⟩⟩

/-- wpimath Rotation3d.rotateBy: composes rotations, other quaternion times
this quaternion. -/
def Rotation3d.rotateBy (a b : Rotation3d) : Rotation3d := ⟨Quat.mul b.q a.q⟩

/-- wpimath Rotation3d addition is rotateBy. -/
instance : Add Rotation3d := ⟨Rotation3d.rotateBy⟩

/-- Model of wpimath Translation3d. -/
@[ext]
structure Translation3d where
  x : ℝ
  y : ℝ
  z : ℝ

/-- Translation3d unary minus. -/
instance : Neg Translation3d := ⟨fun t => ⟨-t.x, -t.y, -t.z⟩⟩

/-- Translation3d addition. -/
instance : Add Translation3d := ⟨fun a b => ⟨a.x + b.x, a.y + b.y, a.z + b.z⟩⟩

/-- wpimath Translation3d.rotateBy: the quaternion sandwich q p q⁻¹ applied
to the vector embedded as a pure quaternion. -/
def Translation3d.rotateBy (t : Translation3d) (r : Rotation3d) : Translation3d :=
  let p : Quat := ⟨0, t.x, t.y, t.z⟩
  let q := (r.q.mul p).mul r.q.inverse
  ⟨q.x, q.y, q.z⟩

/-- Model of wpimath Pose3d. -/
@[ext]
structure Pose3d where
  translation : Translation3d
  rotation : Rotation3d

/-- Model of wpimath Transform3d. -/
@[ext]
structure Transform3d where
  translation : Translation3d
  rotation : Rotation3d

/-- The identity Transform3d (the wpimath default constructor Transform3d()):
zero translation, identity quaternion rotation. -/
def identityTransform3d : Transform3d := ⟨⟨0, 0, 0⟩, ⟨⟨1, 0, 0, 0⟩⟩⟩

/-- wpimath Transform3d.inverse: translation negated and rotated by the
inverse rotation, rotation inverted. -/
def Transform3d.inverse (t : Transform3d) : Transform3d :=
  ⟨(-t.translation).rotateBy (-t.rotation), -t.rotation⟩

/-- wpimath Pose3d.transformBy: rotates the transform translation into the
pose frame and adds it, and composes the rotations. -/
def Pose3d.transformBy (p : Pose3d) (t : Transform3d) : Pose3d :=
  ⟨p.translation + t.translation.rotateBy p.rotation, t.rotation + p.rotation⟩

/-- Python + on Pose3d and Transform3d is Pose3d.transformBy. -/
instance : HAdd Pose3d Transform3d Pose3d := ⟨Pose3d.transformBy⟩

/-! ## Python dynamic-semantics model

The module declares every function a classmethod.  Accessing a classmethod
on the class and calling it with k explicit positional arguments passes
k + 1 positional arguments (the class is prepended); when that count differs
from the parameter count of the def, Python raises TypeError before the body
runs.  Attribute lookup of a method a type does not have raises
AttributeError, and float division by zero raises ZeroDivisionError. -/

/-- The Python errors the module can raise. -/
inductive PyError where
  | typeError
  | attributeError
  | zeroDivisionError
  deriving DecidableEq

/-- Python positional-call protocol: the body runs only when the number of
arguments passed equals the number of parameters the def declares; otherwise
TypeError is raised. -/
def callWithArity {A : Type} (declaredParams argsPassed : Nat)
    (body : Except PyError A) : Except PyError A :=
  if argsPassed = declaredParams then body else .error .typeError

/-- Python float division: raises ZeroDivisionError when the divisor is
exactly zero, else returns the quotient. -/
def pydiv (a b : ℝ) : Except PyError ℝ :=
  if b = 0 then .error .zeroDivisionError else .ok (a / b)

/-- Attribute lookup of getRotation on wpimath Translation2d: the type has
no such method (it is a plain displacement vector), so the lookup fails. -/
def Translation2d.getRotationAttr : Option (Translation2d → Rotation2d) := none

/-! ## The PhotonUtils module

Function bodies, translated from src/photonutils/__init__.py. -/

/-- Body of PhotonUtils.calculateDisanceToTargetMeters (lines 14 to 40):
(targetHeightMeters - cameraHeightMeters) / tan(cameraPitchRadians +
targetPitchRadians). -/
def PhotonUtils.calculateDisanceToTargetMeters (cameraHeightMeters
    targetHeightMeters cameraPitchRadians targetPitchRadians : ℝ) : ℝ :=
  (targetHeightMeters - cameraHeightMeters) /
    Real.tan (cameraPitchRadians + targetPitchRadians)

/-- Body of PhotonUtils.estimateCameraToTargetTranslation (lines 42 to 57):
Translation2d(yaw.cos() * targetDistanceMeters, yaw.sin() *
targetDistanceMeters). -/
def PhotonUtils.estimateCameraToTargetTranslation (targetDistanceMeters : ℝ)
    (yaw : Rotation2d) : Translation2d :=
  ⟨yaw.cos * targetDistanceMeters, yaw.sin * targetDistanceMeters⟩

/-- Body of PhotonUtils.estimateFieldToCamera (lines 80 to 93):
fieldToTarget.transformBy(cameraToTarget.inverse()).  The def itself is a
classmethod missing its cls parameter; the call-level defect is modelled in
estimateFieldToCameraCall. -/
def PhotonUtils.estimateFieldToCamera (cameraToTarget : Transform2d)
    (fieldToTarget : Pose2d) : Pose2d :=
  fieldToTarget.transformBy cameraToTarget.inverse

/-- Body of PhotonUtils.estimateFieldToRobot (lines 59 to 78):
cls.estimateFieldToCamera(cameraToTarget, fieldToTarget).transformBy(
cameraToRobot). -/
def PhotonUtils.estimateFieldToRobot (cameraToTarget : Transform2d)
    (fieldToTarget : Pose2d) (cameraToRobot : Transform2d) : Pose2d :=
  (PhotonUtils.estimateFieldToCamera cameraToTarget fieldToTarget).transformBy
    cameraToRobot

/-- Body of PhotonUtils.estimateFieldToRobotAprilTag (lines 106 to 113):
fieldRelativeTagPose + cameraToTarget.inverse() + cameraToRobot, where + is
Pose3d.transformBy. -/
def PhotonUtils.estimateFieldToRobotAprilTag (cameraToTarget : Transform3d)
    (fieldRelativeTagPose : Pose3d) (cameraToRobot : Transform3d) : Pose3d :=
  fieldRelativeTagPose + cameraToTarget.inverse + cameraToRobot

/-! ## Call-level semantics of the classmethods -/

/-- Call of PhotonUtils.calculateDisanceToTargetMeters: the def declares 5
parameters (cls and 4 others) and a call passes 4 explicit arguments plus
the class, so the body runs; the division raises ZeroDivisionError when the
tangent is exactly zero. -/
def PhotonUtils.calculateDisanceToTargetMetersCall (cameraHeightMeters
    targetHeightMeters cameraPitchRadians targetPitchRadians : ℝ) :
    Except PyError ℝ :=
  callWithArity 5 5
    (pydiv (targetHeightMeters - cameraHeightMeters)
      (Real.tan (cameraPitchRadians + targetPitchRadians)))

/-- Call of PhotonUtils.estimateFieldToCamera: the def (lines 81 to 83)
declares only 2 parameters (cameraToTarget, fieldToTarget) although it is a
classmethod, so a call with 2 explicit arguments passes 3 positional
arguments and raises TypeError before the body can run. -/
def PhotonUtils.estimateFieldToCameraCall (cameraToTarget : Transform2d)
    (fieldToTarget : Pose2d) : Except PyError Pose2d :=
  callWithArity 2 3
    (.ok (PhotonUtils.estimateFieldToCamera cameraToTarget fieldToTarget))

/-- Call of PhotonUtils.estimateFieldToRobot: the def declares 4 parameters
(cls and 3 others) and receives 4, so its body runs; the body then calls
cls.estimateFieldToCamera with 2 explicit arguments, whose TypeError
propagates. -/
def PhotonUtils.estimateFieldToRobotCall (cameraToTarget : Transform2d)
    (fieldToTarget : Pose2d) (cameraToRobot : Transform2d) :
    Except PyError Pose2d :=
  callWithArity 4 4
    (match PhotonUtils.estimateFieldToCameraCall cameraToTarget fieldToTarget with
     | .error e => .error e
     | .ok fieldToCamera => .ok (fieldToCamera.transformBy cameraToRobot))

/-- Call of PhotonUtils.estimateCameraToTarget (lines 95 to 104): the def
declares 4 parameters (cls and 3 others) and receives 4, so the body runs;
the body evaluates fieldToTarget.getRotation() on a Translation2d, and the
failed attribute lookup raises AttributeError. -/
def PhotonUtils.estimateCameraToTargetCall
    (cameraToTargetTranslation fieldToTarget : Translation2d)
    (gyroAngle : Rotation2d) : Except PyError Transform2d :=
  callWithArity 4 4
    (match Translation2d.getRotationAttr with
     | none => .error .attributeError
     | some getRotation =>
         .ok ⟨cameraToTargetTranslation, -gyroAngle - getRotation fieldToTarget⟩)

/-! ## Unfolding lemmas for the instance operations -/

/-- Unfolds Translation2d addition. -/
theorem translation2d_add_def (a b : Translation2d) :
    a + b = ⟨a.x + b.x, a.y + b.y⟩ := rfl

/-- Unfolds Translation2d negation. -/
theorem translation2d_neg_def (a : Translation2d) : -a = ⟨-a.x, -a.y⟩ := rfl

/-- Unfolds Translation3d negation. -/
theorem translation3d_neg_def (a : Translation3d) : -a = ⟨-a.x, -a.y, -a.z⟩ := rfl

/-- Unfolds Rotation2d negation. -/
theorem rotation2d_neg_def (a : Rotation2d) : -a = ⟨-a.angle⟩ := rfl

/-- Unfolds Rotation3d negation as quaternion inversion. -/
theorem rotation3d_neg_def (a : Rotation3d) : -a = ⟨a.q.inverse⟩ := rfl

/-- Unfolds Translation3d addition. -/
theorem translation3d_add_def (a b : Translation3d) :
    a + b = ⟨a.x + b.x, a.y + b.y, a.z + b.z⟩ := rfl

/-- Unfolds Rotation2d addition. -/
theorem rotation2d_add_def (a b : Rotation2d) : a + b = ⟨a.angle + b.angle⟩ := rfl

/-- Unfolds Rotation3d addition as rotateBy. -/
theorem rotation3d_add_def (a b : Rotation3d) : a + b = ⟨Quat.mul b.q a.q⟩ := rfl

/-- Unfolds the Pose3d plus Transform3d operator as transformBy. -/
theorem pose3d_add_def (p : Pose3d) (t : Transform3d) :
    p + t = p.transformBy t := rfl

/-! ## Helper lemmas about the geometry model -/

/-- Composing a Pose2d with the identity Transform2d leaves it unchanged. -/
theorem pose2d_transformBy_identity (p : Pose2d) :
    p.transformBy identityTransform2d = p := by
  ext <;>
    simp [Pose2d.transformBy, identityTransform2d, Translation2d.rotateBy,
      translation2d_add_def, rotation2d_add_def]

/-- The inverse of the identity Transform3d is the identity Transform3d. -/
theorem identityTransform3d_inverse :
    identityTransform3d.inverse = identityTransform3d := by
  ext <;>
    simp [Transform3d.inverse, identityTransform3d, Translation3d.rotateBy,
      Quat.mul, Quat.inverse, Quat.normSq, rotation3d_neg_def,
      translation3d_neg_def]

/-- Composing a Pose3d with the identity Transform3d leaves it unchanged. -/
theorem pose3d_transformBy_identity (p : Pose3d) :
    p + identityTransform3d = p := by
  ext <;>
    simp [pose3d_add_def, Pose3d.transformBy, identityTransform3d,
      Translation3d.rotateBy, Quat.mul, Quat.inverse, Quat.normSq,
      rotation3d_add_def, translation3d_add_def]

/-! ## The claims -/

/-- Claim C1: calculateDisanceToTargetMeters returns (targetHeightMeters -
cameraHeightMeters) / tan(cameraPitchRadians + targetPitchRadians) for every
input, and at cameraHeight 0, targetHeight 1, cameraPitch 0, targetPitch
pi/4 (45 degrees) it returns 1/tan(pi/4) = 1. -/
theorem claim_C1_distance_formula :
    (∀ c t cp tp : ℝ, PhotonUtils.calculateDisanceToTargetMeters c t cp tp =
      (t - c) / Real.tan (cp + tp)) ∧
    PhotonUtils.calculateDisanceToTargetMeters 0 1 0 (π / 4) = 1 := by
  refine ⟨fun c t cp tp => rfl, ?_⟩
  simp [PhotonUtils.calculateDisanceToTargetMeters, Real.tan_pi_div_four]

/-- Claim C2, failing input: calling estimateFieldToCamera directly, here at
the identity transform and the origin pose, raises TypeError because the
classmethod def omits cls and the prepended class overflows the signature;
the delegating estimateFieldToRobot call raises TypeError as well, so
neither returns the composed pose the claim describes. -/
theorem claim_C2_call_raises :
    PhotonUtils.estimateFieldToCameraCall identityTransform2d ⟨⟨0, 0⟩, ⟨0⟩⟩ =
      .error .typeError ∧
    PhotonUtils.estimateFieldToRobotCall identityTransform2d ⟨⟨0, 0⟩, ⟨0⟩⟩
      identityTransform2d = .error .typeError :=
  ⟨rfl, rfl⟩

/-- Claim C3: estimateCameraToTargetTranslation returns the Translation2d
(distance times cos yaw, distance times sin yaw); distance 5 with yaw 0
gives (5, 0), and distance 5 with yaw pi/2 (90 degrees) gives (0, 5). -/
theorem claim_C3_translation_formula :
    (∀ (d : ℝ) (yaw : Rotation2d),
      PhotonUtils.estimateCameraToTargetTranslation d yaw =
        ⟨d * Real.cos yaw.angle, d * Real.sin yaw.angle⟩) ∧
    PhotonUtils.estimateCameraToTargetTranslation 5 ⟨0⟩ = ⟨5, 0⟩ ∧
    PhotonUtils.estimateCameraToTargetTranslation 5 ⟨π / 2⟩ = ⟨0, 5⟩ := by
  refine ⟨fun d yaw => ?_, ?_, ?_⟩ <;>
    ext <;>
      simp [PhotonUtils.estimateCameraToTargetTranslation, Rotation2d.cos,
        Rotation2d.sin, mul_comm]

/-- Claim C4: whenever the height differential is nonzero and the combined
pitch lies strictly between 0 and pi/2, the tangent is nonzero (so the
division is nondegenerate and the result finite) and the returned distance
has the same sign as the height differential. -/
theorem claim_C4_sign (c t cp tp : ℝ) (_hne : t - c ≠ 0)
    (h0 : 0 < cp + tp) (h2 : cp + tp < π / 2) :
    Real.tan (cp + tp) ≠ 0 ∧
    (0 < t - c → 0 < PhotonUtils.calculateDisanceToTargetMeters c t cp tp) ∧
    (t - c < 0 → PhotonUtils.calculateDisanceToTargetMeters c t cp tp < 0) := by
  have htan : 0 < Real.tan (cp + tp) :=
    Real.tan_pos_of_pos_of_lt_pi_div_two h0 h2
  exact ⟨ne_of_gt htan, fun h => div_pos h htan,
    fun h => div_neg_of_neg_of_pos h htan⟩

/-- Witness for claim C4 at heights 0 and 1 with pitches 0 and pi/4. -/
theorem claim_C4_sign_witness :
    Real.tan ((0 : ℝ) + π / 4) ≠ 0 ∧
    (0 < (1 : ℝ) - 0 → 0 < PhotonUtils.calculateDisanceToTargetMeters 0 1 0 (π / 4)) ∧
    ((1 : ℝ) - 0 < 0 → PhotonUtils.calculateDisanceToTargetMeters 0 1 0 (π / 4) < 0) :=
  claim_C4_sign 0 1 0 (π / 4) (by norm_num)
    (by have := Real.pi_pos; linarith)
    (by have := Real.pi_pos; linarith)

/-- Claim C5, failing input: estimateCameraToTarget at the concrete
translations (1, 2) and (3, 4) with gyro angle pi/6 raises AttributeError,
because the body calls getRotation on a Translation2d, which has no such
method; it never returns the Transform2d the claim describes. -/
theorem claim_C5_call_raises :
    PhotonUtils.estimateCameraToTargetCall ⟨1, 2⟩ ⟨3, 4⟩ ⟨π / 6⟩ =
      .error .attributeError :=
  rfl

/-- Claim C6: with the identity Transform2d as the cameraToRobot offset,
estimateFieldToRobot agrees with estimateFieldToCamera, both at the level of
the function bodies and at the level of the Python call semantics (where
both raise the same TypeError). -/
theorem claim_C6_identity_offset (T : Transform2d) (P : Pose2d) :
    PhotonUtils.estimateFieldToRobot T P identityTransform2d =
      PhotonUtils.estimateFieldToCamera T P ∧
    PhotonUtils.estimateFieldToRobotCall T P identityTransform2d =
      PhotonUtils.estimateFieldToCameraCall T P := by
  exact ⟨pose2d_transformBy_identity _, rfl⟩

/-- Claim C7: estimateFieldToRobotAprilTag with the identity Transform3d as
both cameraToTarget and cameraToRobot returns fieldRelativeTagPose
unchanged. -/
theorem claim_C7_apriltag_identity (fieldRelativeTagPose : Pose3d) :
    PhotonUtils.estimateFieldToRobotAprilTag identityTransform3d
      fieldRelativeTagPose identityTransform3d = fieldRelativeTagPose := by
  unfold PhotonUtils.estimateFieldToRobotAprilTag
  rw [identityTransform3d_inverse, pose3d_transformBy_identity,
    pose3d_transformBy_identity]

/-- Claim C8, counterexample: with both pitches 0 the tangent is exactly 0,
and Python float division by zero raises ZeroDivisionError, so the call does
raise a structured error instead of propagating an infinity or NaN value;
the claim as stated is false for this input. -/
theorem claim_C8_counterexample :
    PhotonUtils.calculateDisanceToTargetMetersCall 0 1 0 0 =
      .error .zeroDivisionError := by
  simp [PhotonUtils.calculateDisanceToTargetMetersCall, callWithArity, pydiv,
    Real.tan_zero]

/-- Claim C8 as amended: calculateDisanceToTargetMeters performs no input
validation and catches nothing; the call always binds and evaluates the
division, returning the quotient whenever the tangent of the combined pitch
is nonzero, and raising ZeroDivisionError, which propagates uncaught to the
caller, when the tangent is exactly zero. -/
theorem claim_C8_amended_propagation (c t cp tp : ℝ) :
    PhotonUtils.calculateDisanceToTargetMetersCall c t cp tp =
      if Real.tan (cp + tp) = 0 then .error .zeroDivisionError
      else .ok ((t - c) / Real.tan (cp + tp)) :=
  rfl

/-- Claim C9: every direct call of estimateFieldToCamera raises TypeError,
because the classmethod def omits the cls parameter, so the implicitly bound
class plus the two explicit arguments overflow the two-parameter signature;
consequently every call of estimateFieldToRobot, which delegates to it with
two explicit arguments, raises TypeError as well. -/
theorem claim_C9_classmethod_arity (T : Transform2d) (P : Pose2d)
    (R : Transform2d) :
    PhotonUtils.estimateFieldToCameraCall T P = .error .typeError ∧
    PhotonUtils.estimateFieldToRobotCall T P R = .error .typeError :=
  ⟨rfl, rfl⟩

/-- Claim C10: every call of estimateCameraToTarget raises AttributeError,
because the body calls getRotation on its fieldToTarget argument, a
Translation2d, and wpimath Translation2d has no getRotation method. -/
theorem claim_C10_attribute_error (ctt ftt : Translation2d) (g : Rotation2d) :
    PhotonUtils.estimateCameraToTargetCall ctt ftt g = .error .attributeError :=
  rfl

end
